import Mathlib

/-!
Verification of the streaming chat relay and session store of
ddxfish/chat-web-ui-python (src/main.py, src/chat_backend.py,
src/chat_session_manager.py).

The embedding is shallow: Python string operations are modelled over
`List Char` (Python indexes and slices strings by character), JSON
documents on disk become a `List (String × SessionData)` association list
from filename to document, and the wall-clock fields `created_at` and
`last_active` (written on every mutation but never read by any operation
verified here) are elided.  Fallible Python code (``raise``) is modelled
with `Except String`.
-/

/-! ## Python string primitives -/

/-- Python considers these characters whitespace for `str.strip()` /
`str.split()` (space, tab, newline, carriage return, vertical tab, form feed). -/
def pyIsSpace (c : Char) : Bool :=
  c == ' ' || c == '\t' || c == '\n' || c == '\r' || c == '\x0b' || c == '\x0c'

/-- Drop characters satisfying `p` from both ends of a character list. -/
def stripList (p : Char → Bool) (l : List Char) : List Char :=
  ((l.dropWhile p).reverse.dropWhile p).reverse

/-- Python `s.strip()` (no arguments): remove whitespace from both ends. -/
def pyStripWs (s : String) : String :=
  ⟨stripList pyIsSpace s.data⟩

/-- Python `s.strip(chars)`: remove any of the given characters from both ends. -/
def pyStripChars (cs : List Char) (s : String) : String :=
  ⟨stripList (fun c => cs.contains c) s.data⟩

/-- Python `s.startswith(pre)`. -/
def pyStartsWith (pre s : String) : Bool :=
  pre.data.isPrefixOf s.data

/-- Python `s[n:]` (character-based slice). -/
def pyDrop (n : Nat) (s : String) : String :=
  ⟨s.data.drop n⟩

/-- Python `c in s` for a single character `c`. -/
def pyContainsChar (c : Char) (s : String) : Bool :=
  s.data.contains c

/-- Python `s.lower()`. -/
def pyLower (s : String) : String :=
  ⟨s.data.map Char.toLower⟩

/-- Python `s.replace(a, b)` for single characters `a`, `b`. -/
def pyReplaceChar (a b : Char) (s : String) : String :=
  ⟨s.data.map (fun c => if c == a then b else c)⟩

/-- Python `s.replace(a, '')` for a single character `a`. -/
def pyRemoveChar (a : Char) (s : String) : String :=
  ⟨s.data.filter (fun c => !(c == a))⟩

/-- Helper for `pySplitChar`: split a character list at every occurrence of
`sep`, keeping empty pieces, accumulating the current piece in reverse. -/
def pySplitCharAux (sep : Char) : List Char → List Char → List (List Char)
  | [], acc => [acc.reverse]
  | c :: rest, acc =>
    if c == sep then acc.reverse :: pySplitCharAux sep rest []
    else pySplitCharAux sep rest (c :: acc)

/-- Python `s.split(sep)` for a single-character separator: empty pieces are
kept, and the empty string splits to `[""]`. -/
def pySplitChar (sep : Char) (s : String) : List String :=
  (pySplitCharAux sep s.data []).map (fun l => ⟨l⟩)

/-- Helper for `pySplitWs`: split at every whitespace character, keeping
empty pieces (filtered by the caller, matching Python `s.split()`). -/
def pySplitWsAux : List Char → List Char → List (List Char)
  | [], acc => [acc.reverse]
  | c :: rest, acc =>
    if pyIsSpace c then acc.reverse :: pySplitWsAux rest []
    else pySplitWsAux rest (c :: acc)

/-- Python `s.split()` (no arguments): split on runs of whitespace,
discarding empty pieces. -/
def pySplitWs (s : String) : List String :=
  ((pySplitWsAux s.data []).map (fun l => (⟨l⟩ : String))).filter (fun p => !(p == ""))

/-- Python `sep.join(parts)`. -/
def pyJoin (sep : String) : List String → String
  | [] => ""
  | [x] => x
  | x :: y :: rest => x ++ sep ++ pyJoin sep (y :: rest)

/-- Python `s.isalnum()`: nonempty and every character alphanumeric
(restricted to the ASCII classification, which covers every name the
program's validation accepts or the claims mention). -/
def pyIsAlnum (s : String) : Bool :=
  !s.data.isEmpty && s.data.all Char.isAlphanum

/-- Concatenation of a list of strings (Python `+=` accumulation). -/
def pyConcat : List String → String
  | [] => ""
  | s :: rest => s ++ pyConcat rest

/-- The suffix of `l` strictly after the last occurrence of `sep`, or `none`
when `sep` does not occur; models Python `s.split(sep)[-1]` guarded by
`sep in s`. -/
def afterLastOcc (sep : List Char) : List Char → Option (List Char)
  | [] => none
  | c :: rest =>
    match afterLastOcc sep rest with
    | some suf => some suf
    | none =>
      if sep.isPrefixOf (c :: rest) then some ((c :: rest).drop sep.length)
      else none

/-! ## Data model (chat_session_manager.py)

A `Msg` is one history entry; the `timestamp` field written by
`add_message` is elided (it is never read back by the verified
operations).  A `SessionData` is one on-disk session document; the
`created_at` / `last_active` wall-clock fields are likewise elided. -/

structure Msg where
  role : String
  content : String
deriving DecidableEq, Repr

structure SessionData where
  id : String
  name : String
  system_prompt : String
  messages : List Msg
deriving DecidableEq, Repr

/-- The `ChatSessionManager` process state: the directory plus the
`active_session_id` / `active_session_data` pair. -/
structure MgrState where
  files : List (String × SessionData)
  active_session_id : Option String
  active_session_data : Option SessionData
deriving DecidableEq

/-- The manager state at process start: empty directory, no active session. -/
def emptyMgr : MgrState :=
  { files := [], active_session_id := none, active_session_data := none }

/-- Read the document stored under filename `name`, if that file exists. -/
def getFile (files : List (String × SessionData)) (name : String) : Option SessionData :=
  match files.find? (fun p => p.1 == name) with
  | some p => some p.2
  | none => none

/-- Write document `d` under filename `name` (overwrite in place, else create). -/
def putFile (files : List (String × SessionData)) (name : String) (d : SessionData) :
    List (String × SessionData) :=
  if (files.find? (fun p => p.1 == name)).isSome then
    files.map (fun p => if p.1 == name then (name, d) else p)
  else files ++ [(name, d)]

/-- Delete the file named `name` (Python `Path.unlink`). -/
def delFile (files : List (String × SessionData)) (name : String) :
    List (String × SessionData) :=
  files.filter (fun p => !(p.1 == name))

/-! ## ChatSessionManager operations -/

/-- Model of `ChatSessionManager.create_new_session`: write a fresh document whose
`name` equals its `id` under `{id}.json` and make it active.  The
time-based id `str(int(time.time()))` and the resolved system prompt are
passed in as parameters. -/
def create_new_session (st : MgrState) (session_id system_prompt : String) : MgrState :=
  let d : SessionData :=
    { id := session_id, name := session_id, system_prompt := system_prompt, messages := [] }
  { files := putFile st.files (session_id ++ ".json") d,
    active_session_id := some session_id,
    active_session_data := some d }

/-- Model of `ChatSessionManager._save_session_data`: resolve the backing file of
`sid` — the exact `{sid}.json` if it exists, else the first file matching
the glob `*_{sid}.json` (any filename ending in `_{sid}.json`), else fall
back to `{sid}.json` — and write `d` there. -/
def save_session_data (files : List (String × SessionData)) (sid : String) (d : SessionData) :
    List (String × SessionData) :=
  let original := sid ++ ".json"
  let target :=
    if (getFile files original).isSome then original
    else
      match files.find? (fun p => List.isSuffixOf ("_" ++ sid ++ ".json").data p.1.data) with
      | some p => p.1
      | none => original
  putFile files target d

/-- Model of `ChatSessionManager.load_session`: read `{sid}.json` (raising
`FileNotFoundError` when that exact file does not exist — no renamed-file
lookup here), write it back (the `last_active` refresh), and make the
session active. -/
def load_session (st : MgrState) (sid : String) : Except String (SessionData × MgrState) :=
  match getFile st.files (sid ++ ".json") with
  | none => Except.error ("Session " ++ sid ++ " not found")
  | some d =>
    Except.ok (d, { files := save_session_data st.files sid d,
                    active_session_id := some sid,
                    active_session_data := some d })

/-- Model of `ChatSessionManager.get_active_session`: `None` when
`active_session_id` is falsy (absent or the empty string). -/
def get_active_session (st : MgrState) : Option SessionData :=
  match st.active_session_id with
  | none => none
  | some sid => if sid == "" then none else st.active_session_data

/-- Model of `ChatSessionManager.has_active_session` (`active_session_id is not None`;
the id is also required truthy nowhere here, matching the source's
`is not None` check). -/
def has_active_session (st : MgrState) : Bool :=
  st.active_session_id.isSome

/-- Model of `ChatSessionManager.delete_session`: unlink the exact `{sid}.json`
(`FileNotFoundError` when absent) and, when the deleted session was the
active one, clear the active reference without creating a replacement. -/
def delete_session (st : MgrState) (sid : String) : Except String MgrState :=
  if (getFile st.files (sid ++ ".json")).isSome then
    let files' := delFile st.files (sid ++ ".json")
    if st.active_session_id == some sid then
      Except.ok { files := files', active_session_id := none, active_session_data := none }
    else
      Except.ok { st with files := files' }
  else Except.error ("Session " ++ sid ++ " not found")

/-- The safe filename stem `update_session_name` derives from a new name:
spaces and slashes become underscores, every character other than
alphanumerics, `_` and `-` is dropped, and the result is capped at 50
characters. -/
def sanitize_name (new_name : String) : String :=
  let s1 := pyReplaceChar ' ' '_' new_name
  let s2 := pyReplaceChar '/' '_' s1
  let s3 := pyReplaceChar '\\' '_' s2
  ⟨(s3.data.filter (fun c => c.isAlphanum || c == '_' || c == '-')).take 50⟩

/-- Model of `ChatSessionManager.update_session_name`: read the exact `{sid}.json`
(`FileNotFoundError` when absent), set the new name, and either relocate
the document to `{sanitized}_{sid}.json` (writing the new file, then
unlinking the old one) when both `rename_file` and `config.USE_NAMED_FILES`
hold, or overwrite in place; the in-memory active copy is refreshed when
`sid` is the active session. -/
def update_session_name (st : MgrState) (sid new_name : String)
    (rename_file use_named_files : Bool) : Except String MgrState :=
  match getFile st.files (sid ++ ".json") with
  | none => Except.error ("Session " ++ sid ++ " not found")
  | some d =>
    let d' := { d with name := new_name }
    let files' :=
      if rename_file && use_named_files then
        let new_filename := sanitize_name new_name ++ "_" ++ sid ++ ".json"
        delFile (putFile st.files new_filename d') (sid ++ ".json")
      else putFile st.files (sid ++ ".json") d'
    Except.ok { st with
      files := files',
      active_session_data :=
        if st.active_session_id == some sid then some d' else st.active_session_data }

/-- Model of `ChatSessionManager.get_messages`: the active session's message list,
or `[]` when none is active. -/
def get_messages (st : MgrState) : List Msg :=
  match get_active_session st with
  | none => []
  | some d => d.messages

/-- Model of `ChatSessionManager.add_message`: append one message to the active
session and flush it to disk through `save_session_data`; raises
`RuntimeError` when no session is active. -/
def add_message (st : MgrState) (role content : String) : Except String MgrState :=
  match get_active_session st, st.active_session_id with
  | some d, some sid =>
    let d' := { d with messages := d.messages ++ [{ role := role, content := content }] }
    Except.ok { st with
      files := save_session_data st.files sid d',
      active_session_data := some d' }
  | _, _ => Except.error "No active session"

/-- Python `messages[:-count]` for a natural `count`: the empty list when
`count = 0` (since `messages[:0]` is empty), else all but the last
`count` entries. -/
def pySliceDropLast (msgs : List Msg) (count : Nat) : List Msg :=
  if count == 0 then [] else msgs.take (msgs.length - count)

/-- Model of `ChatSessionManager.delete_last_messages`: with an active session,
either empty the list returning its prior length (when
`count >= len(messages)`) or assign `messages[:-count]` returning `count`;
the result is flushed to disk.  Raises `RuntimeError` without an active
session. -/
def delete_last_messages (st : MgrState) (count : Nat) : Except String (Nat × MgrState) :=
  match get_active_session st, st.active_session_id with
  | some d, some sid =>
    let msgs := d.messages
    let result :=
      if count ≥ msgs.length then (msgs.length, ([] : List Msg))
      else (count, pySliceDropLast msgs count)
    let d' := { d with messages := result.2 }
    Except.ok (result.1, { st with
      files := save_session_data st.files sid d',
      active_session_data := some d' })
  | _, _ => Except.error "No active session"

/-- Model of `ChatSessionManager.get_system_prompt`: the active session's prompt, or
the configured default (passed in) when none is active. -/
def get_system_prompt (st : MgrState) (config_default : String) : String :=
  match get_active_session st with
  | none => config_default
  | some d => d.system_prompt

/-! ## ChatBackend (chat_backend.py) -/

/-- Model of `ChatBackend._build_messages`: a system message from the
configured prompt, then — when a history was passed at all — the last 20
history entries (`history[-20:]` when longer than 20, the whole history
otherwise) copied field by field, then the current user message. -/
def build_messages (system_prompt user_message : String) (history : List Msg) : List Msg :=
  let base := [{ role := "system", content := system_prompt : Msg }]
  let withHistory :=
    if history.isEmpty then base
    else
      let recent_history :=
        if history.length > 20 then history.drop (history.length - 20) else history
      base ++ recent_history.map (fun m => { role := m.role, content := m.content : Msg })
  withHistory ++ [{ role := "user", content := user_message }]

/-- Outcome of iterating one upstream streaming generator: it either runs
to completion having yielded `frags`, or yields `frags` and then raises
with message `e`. -/
inductive StreamAttempt where
  | ok (frags : List String)
  | raises (frags : List String) (e : String)
deriving DecidableEq, Repr

/-- Model of `ChatBackend.get_streaming_response`.  Inputs: the
`config.ENABLE_STREAMING` flag, the outcome of the variant-specific
streaming generator (never started when streaming is disabled), and the
outcome of the non-streaming `get_response` call (consulted only when the
fallback runs).  Output: the outcome the caller's iteration sees, paired
with the number of times the non-streaming fallback `get_response` was
called. -/
def get_streaming_response (enable_streaming : Bool) (attempt : StreamAttempt)
    (complete : Except String String) : StreamAttempt × Nat :=
  if !enable_streaming then
    match complete with
    | Except.ok r => (StreamAttempt.ok [r], 1)
    | Except.error e => (StreamAttempt.raises [] e, 1)
  else
    match attempt with
    | StreamAttempt.ok frags => (StreamAttempt.ok frags, 0)
    | StreamAttempt.raises frags _ =>
      match complete with
      | Except.ok r => (StreamAttempt.ok (frags ++ [r]), 1)
      | Except.error e => (StreamAttempt.raises frags e, 1)

/-- One `delta` object of a streamed chat-completion chunk: its optional
`content` field (`delta.get('content', '')`). -/
structure UpDelta where
  content : Option String
deriving DecidableEq, Repr

/-- One element of a chunk's `choices` array: its optional `delta` object
(`choices[0].get('delta', {})`). -/
structure UpChoice where
  delta : Option UpDelta
deriving DecidableEq, Repr

/-- The JSON object carried by one `data: ` frame, projected onto the
fields the decoders inspect: the optional `choices` array and the optional
top-level `error` value. -/
structure UpPayload where
  choices : Option (List UpChoice)
  err : Option String
deriving DecidableEq, Repr

/-- The incremental text a payload's first choice carries
(`data['choices'][0].get('delta', {}).get('content', '')`), for a payload
whose `choices` is present and non-empty. -/
def firstChoiceContent (c0 : UpChoice) : String :=
  ((c0.delta.getD { content := none }).content).getD ""

/-- Model of the frame loop of `ChatBackend._openai_streaming_request`
(the part after the HTTP call): `parse` stands for `json.loads`, returning
`none` on `json.JSONDecodeError`; `lines` is the sequence
`response.iter_lines()` produced.  Falsy lines are skipped, only lines
starting with `data: ` are examined, the payload `[DONE]` breaks the loop,
malformed payloads are skipped, and each non-empty first-choice delta
content is yielded in order.  This variant has no error branch. -/
def openai_streaming_decode (parse : String → Option UpPayload) :
    List String → List String
  | [] => []
  | line :: rest =>
    if line == "" then openai_streaming_decode parse rest
    else if pyStartsWith "data: " line then
      let data_str := pyDrop 6 line
      if data_str == "[DONE]" then []
      else
        match parse data_str with
        | none => openai_streaming_decode parse rest
        | some data =>
          match data.choices with
          | some (c0 :: _) =>
            let content := firstChoiceContent c0
            if !(content == "") then content :: openai_streaming_decode parse rest
            else openai_streaming_decode parse rest
          | _ => openai_streaming_decode parse rest
    else openai_streaming_decode parse rest

/-- Helper for `openai_compatible_streaming_decode`: the frame loop of
`ChatBackend._openai_compatible_streaming_request` with its running
`has_data` flag.  The result pairs the fragments yielded with `none` on
normal completion or `some e` when the loop raised with message `e`:
an explicit `error` member of a payload whose `choices` is absent or empty
raises, and an input with no truthy line at all raises `No data received`. -/
def compat_decode_aux (parse : String → Option UpPayload) :
    List String → Bool → List String × Option String
  | [], has_data =>
    ([], if has_data then none
         else some "No data received from LM Studio streaming endpoint")
  | line0 :: rest, has_data =>
    if line0 == "" then compat_decode_aux parse rest has_data
    else
      let line := pyStripWs line0
      if pyStartsWith "data: " line then
        let data_str := pyStripWs (pyDrop 6 line)
        if data_str == "[DONE]" then ([], none)
        else
          match parse data_str with
          | none => compat_decode_aux parse rest true
          | some data =>
            match data.choices with
            | some (c0 :: _) =>
              let content := firstChoiceContent c0
              if !(content == "") then
                let r := compat_decode_aux parse rest true
                (content :: r.1, r.2)
              else compat_decode_aux parse rest true
            | _ =>
              match data.err with
              | some e => ([], some ("LM Studio API error: " ++ e))
              | none => compat_decode_aux parse rest true
      else compat_decode_aux parse rest true

/-- Model of the frame loop of
`ChatBackend._openai_compatible_streaming_request` (the part after the
HTTP call), starting with `has_data = False`. -/
def openai_compatible_streaming_decode (parse : String → Option UpPayload)
    (lines : List String) : List String × Option String :=
  compat_decode_aux parse lines false

/-! ## Relay and orchestration (main.py) -/

/-- One server-sent-event frame emitted to the browser by
`post_chat_stream`: a `chunk` frame, the `done:true` terminator, or an
`error` frame. -/
inductive SseFrame where
  | chunk (s : String)
  | done
  | fail (e : String)
deriving DecidableEq, Repr

/-- The chunks `generate` relays: each truthy (non-empty) fragment the
backend iterator yielded, in order (`if chunk:` skips empty ones). -/
def streamed_chunks (frags : List String) : List String :=
  frags.filter (fun c => !(c == ""))

/-- Concatenation of the text carried by the `chunk` frames of an event
stream, in order (what the browser assembles). -/
def sse_text : List SseFrame → String
  | [] => ""
  | SseFrame.chunk s :: rest => s ++ sse_text rest
  | _ :: rest => sse_text rest

/-- The auto-naming condition of `post_chat` / `post_chat_stream`:
`config.AUTO_NAME_SESSIONS and len(current_messages) == 2 and
session['name'] == session['id']`, checked by value on the session state. -/
def auto_name_condition (auto_name_sessions : Bool) (current_messages : List Msg)
    (name id : String) : Bool :=
  auto_name_sessions && current_messages.length == 2 && name == id

/-- Model of the `generate` closure inside `post_chat_stream`: relay each
truthy fragment as a `chunk` frame; if the backend iterator raises at any
point, the surrounding `except` emits a single `error` frame and the
session is untouched (the two `add_message` calls come only after the
loop).  On completion, append the user message and the concatenated
assistant response, evaluate the auto-naming condition on the resulting
state (the returned flag says whether the background naming task was
fired), and emit the `done` frame. -/
def generateStream (st : MgrState) (user_message : String) (upstream : StreamAttempt)
    (auto_name_sessions : Bool) : List SseFrame × MgrState × Bool :=
  match upstream with
  | StreamAttempt.raises frags e =>
    ((streamed_chunks frags).map SseFrame.chunk ++ [SseFrame.fail e], st, false)
  | StreamAttempt.ok frags =>
    let chunks := streamed_chunks frags
    let full_response := pyConcat chunks
    match add_message st "user" user_message with
    | Except.error e => (chunks.map SseFrame.chunk ++ [SseFrame.fail e], st, false)
    | Except.ok st1 =>
      match add_message st1 "assistant" full_response with
      | Except.error e => (chunks.map SseFrame.chunk ++ [SseFrame.fail e], st1, false)
      | Except.ok st2 =>
        match get_active_session st2 with
        | none => (chunks.map SseFrame.chunk ++ [SseFrame.fail "no active session"], st2, false)
        | some session =>
          let fired :=
            auto_name_condition auto_name_sessions (get_messages st2) session.name session.id
          (chunks.map SseFrame.chunk ++ [SseFrame.done], st2, fired)

/-- Model of the `post_chat_stream` route: reject with an error response
when no session is active or the stripped message text is empty, otherwise
run `generate`.  The backend iterator's outcome is the `upstream`
parameter. -/
def post_chat_stream (st : MgrState) (text : String) (upstream : StreamAttempt)
    (auto_name_sessions : Bool) : Except String (List SseFrame × MgrState × Bool) :=
  if !(has_active_session st) then
    Except.error "No active session. Create a new chat first."
  else
    let user_message := pyStripWs text
    if user_message == "" then Except.error "Empty message"
    else Except.ok (generateStream st user_message upstream auto_name_sessions)

/-- Model of the `get_history` route (`GET /api/history`): the active
session's ordered message array, or the empty array when none is active. -/
def get_history (st : MgrState) : List Msg :=
  if has_active_session st then get_messages st else []

/-! ## Session auto-naming (main.py, `_schedule_session_naming`) -/

/-- Characters removed around the candidate name by
`clean_name.strip('"\x27.,!?')`. -/
def namePunct : List Char := ['"', '\'', '.', ',', '!', '?']

/-- Final validation of `name_session` (main.py lines 382-393): the
candidate must split on `_` into exactly 3 parts, each alphanumeric once
hyphens are removed, each between 2 and 15 characters; the validated
candidate itself is returned. -/
def final_validation (clean_name : String) : Except String String :=
  let final_parts := pySplitChar '_' clean_name
  if !(final_parts.length == 3) then Except.error "Wrong number of parts"
  else if !(final_parts.all (fun p => pyIsAlnum (pyRemoveChar '-' p))) then
    Except.error "Invalid characters in parts"
  else if final_parts.any (fun p => p.length > 15 || p.length < 2) then
    Except.error "Word length out of bounds"
  else Except.ok clean_name

/-- Model of the normalization pipeline of `name_session` (main.py lines
343-393) from the raw model reply to the accepted name or a raised
`ValueError`: take the text after the last `</think>` if present, strip
whitespace and surrounding punctuation/quotes, canonicalize an
underscore-joined 3-word form (else turn underscores into spaces),
convert a space-separated form to underscores (taking the first 3 words
when more than 3 arrive, raising when fewer than 3), then run the final
validation. -/
def normalize_session_name (name_response : String) : Except String String :=
  let clean0 :=
    match afterLastOcc "</think>".data name_response.data with
    | some suffix => pyStripWs ⟨suffix⟩
    | none => pyStripWs name_response
  let clean1 := pyStripWs (pyStripChars namePunct (pyStripWs clean0))
  let clean2 :=
    if pyContainsChar '_' clean1 then
      let parts := pySplitChar '_' clean1
      if parts.length == 3 && parts.all (fun p => !(pyStripWs p == "")) then
        pyJoin "_" (parts.map (fun p => pyLower (pyStripWs p)))
      else pyReplaceChar '_' ' ' clean1
    else clean1
  let spaced : Except String String :=
    if pyContainsChar ' ' clean2 then
      let parts := pySplitWs clean2
      if parts.length == 3 then
        Except.ok (pyJoin "_" (parts.map (fun p => pyLower (pyStripWs p))))
      else if parts.length > 3 then Except.ok (pyJoin "_" (parts.take 3))
      else Except.error "Not enough words"
    else Except.ok clean2
  match spaced with
  | Except.error e => Except.error e
  | Except.ok clean3 => final_validation clean3

/-- Model of the background naming task `name_session`: normalize the raw
reply and, on success, store the new name through `update_session_name`
with file renaming; every failure (validation or storage) is swallowed,
leaving the state unchanged. -/
def run_naming_task (st : MgrState) (sid : String) (name_response : String)
    (use_named_files : Bool) : MgrState :=
  match normalize_session_name name_response with
  | Except.error _ => st
  | Except.ok clean_name =>
    match update_session_name st sid clean_name true use_named_files with
    | Except.ok st' => st'
    | Except.error _ => st

/-! ## Helper lemmas -/

lemma str_empty_append (s : String) : "" ++ s = s := by
  cases s
  rfl

lemma str_append_assoc (a b c : String) : a ++ b ++ c = a ++ (b ++ c) := by
  cases a with
  | mk la =>
    cases b with
    | mk lb =>
      cases c with
      | mk lc =>
        show String.mk (la ++ lb ++ lc) = String.mk (la ++ (lb ++ lc))
        rw [List.append_assoc]

lemma pyConcat_streamed_chunks (frags : List String) :
    pyConcat (streamed_chunks frags) = pyConcat frags := by
  induction frags with
  | nil => rfl
  | cons c rest ih =>
    by_cases hc : c = ""
    · subst hc
      show pyConcat (List.filter _ ("" :: rest)) = pyConcat ("" :: rest)
      simp only [List.filter]
      show pyConcat (streamed_chunks rest) = "" ++ pyConcat rest
      rw [ih, str_empty_append]
    · show pyConcat (List.filter _ (c :: rest)) = pyConcat (c :: rest)
      simp only [List.filter]
      have : (!(c == "")) = true := by simp [hc]
      rw [this]
      show c ++ pyConcat (streamed_chunks rest) = c ++ pyConcat rest
      rw [ih]

lemma sse_text_chunks_done (l : List String) :
    sse_text (l.map SseFrame.chunk ++ [SseFrame.done]) = pyConcat l := by
  induction l with
  | nil => rfl
  | cons s rest ih =>
    show s ++ sse_text (rest.map SseFrame.chunk ++ [SseFrame.done]) = s ++ pyConcat rest
    rw [ih]

lemma map_msg_eta (l : List Msg) :
    l.map (fun m => { role := m.role, content := m.content : Msg }) = l := by
  induction l with
  | nil => rfl
  | cons x xs ih => rw [List.map_cons, ih]

/-! ## Claims -/

/-- Claim C2: for every input, if streaming is disabled by configuration,
or the streaming call raises before yielding any fragment, then the
streaming operation yields exactly one fragment, equal to the full text
the non-streaming `get_response` call returned, and the fallback is
attempted exactly once. -/
theorem streaming_fallback_single_fragment (enable : Bool) (attempt : StreamAttempt)
    (r : String) (h : enable = false ∨ ∃ e, attempt = StreamAttempt.raises [] e) :
    get_streaming_response enable attempt (Except.ok r) = (StreamAttempt.ok [r], 1) := by
  rcases h with h | ⟨e, h⟩
  · subst h
    rfl
  · subst h
    cases enable <;> rfl

/-- Witness for C2: with streaming disabled, the caller receives the single
fragment `"full"` and the fallback ran once. -/
theorem streaming_fallback_single_fragment_witness :
    get_streaming_response false (StreamAttempt.ok []) (Except.ok "full")
      = (StreamAttempt.ok ["full"], 1) :=
  streaming_fallback_single_fragment false (StreamAttempt.ok []) "full" (Or.inl rfl)

/-- Claim C3: for every history and current user message, the outbound
message set is the system message, then the last `min 20 (length history)`
history entries in original order, then the current user message. -/
theorem history_truncation (sp um : String) (h : List Msg) :
    build_messages sp um h
      = ({ role := "system", content := sp } : Msg) ::
          (h.drop (h.length - min 20 h.length) ++ [{ role := "user", content := um }])
    ∧ (h.drop (h.length - min 20 h.length)).length = min 20 h.length
    ∧ h.take (h.length - min 20 h.length) ++ h.drop (h.length - min 20 h.length) = h := by
  refine ⟨?_, ?_, List.take_append_drop _ _⟩
  · unfold build_messages
    by_cases h0 : h.isEmpty
    · have hnil : h = [] := List.isEmpty_iff.mp h0
      subst hnil
      rfl
    · by_cases h20 : h.length > 20
      · have hmin : min 20 h.length = 20 := min_eq_left (le_of_lt h20)
        simp [h0, h20, hmin, map_msg_eta]
      · have hle : h.length ≤ 20 := Nat.le_of_not_lt h20
        have hmin : min 20 h.length = h.length := min_eq_right hle
        simp [h0, h20, hmin, map_msg_eta, Nat.sub_self]
  · rw [List.length_drop]
    exact Nat.sub_sub_self (Nat.min_le_right 20 h.length)

/-- Claim C8: the background naming task fires if and only if auto-naming
is enabled, the session has exactly two messages, and its name still
equals its id; consequently, after appending one completed exchange it
fires exactly when the prior history was empty. -/
theorem auto_naming_trigger (auto : Bool) (msgs : List Msg) (u a : Msg) (name id : String) :
    (auto_name_condition auto msgs name id = true
      ↔ (auto = true ∧ msgs.length = 2 ∧ name = id))
    ∧ (auto_name_condition auto (msgs ++ [u, a]) name id = true
      ↔ (auto = true ∧ msgs = [] ∧ name = id)) := by
  constructor
  · simp [auto_name_condition, and_assoc]
  · simp only [auto_name_condition, Bool.and_eq_true, beq_iff_eq, List.length_append]
    constructor
    · rintro ⟨⟨ha, hl⟩, hn⟩
      have hz : msgs.length = 0 := by simpa using hl
      exact ⟨ha, List.length_eq_zero.mp hz, hn⟩
    · rintro ⟨ha, hm, hn⟩
      subst hm
      exact ⟨⟨ha, rfl⟩, hn⟩

/-- The session document of the C5 failing input: one prior message. -/
def c5_session : SessionData :=
  { id := "1", name := "1", system_prompt := "p",
    messages := [{ role := "user", content := "hi" }] }

/-- The manager state of the C5 failing input: `c5_session` active. -/
def c5_state : MgrState :=
  { files := [("1.json", c5_session)],
    active_session_id := some "1",
    active_session_data := some c5_session }

/-- Claim C5 failing input (`count = 0` on a one-message session): the
source's `messages[:-count]` slice with `count = 0` is `messages[:0]`,
so `delete_last_messages(0)` reports 0 deletions yet empties the list
instead of leaving it unchanged. -/
theorem delete_last_messages_zero_empties :
    get_messages c5_state = [{ role := "user", content := "hi" }]
    ∧ ∃ st', delete_last_messages c5_state 0 = Except.ok (0, st')
        ∧ get_messages st' = [] := by
  exact ⟨rfl, _, rfl, rfl⟩

/-- The manager state of the C4 failing input: one freshly created session
whose backing file is `1700000000.json`. -/
def c4_state : MgrState := create_new_session emptyMgr "1700000000" "prompt"

/-- Claim C4 failing input: renaming the session to `"Foo Bar"` relocates
the backing file to `Foo_Bar_1700000000.json` (carrying `name = "Foo Bar"`),
after which `load_session` — which resolves only the exact id-named file,
with no suffix lookup — raises `FileNotFoundError` instead of returning the
renamed session. -/
theorem rename_relocation_breaks_load :
    ∃ st', update_session_name c4_state "1700000000" "Foo Bar" true true = Except.ok st'
      ∧ getFile st'.files "Foo_Bar_1700000000.json"
          = some { id := "1700000000", name := "Foo Bar",
                   system_prompt := "prompt", messages := [] }
      ∧ getFile st'.files "1700000000.json" = none
      ∧ load_session st' "1700000000" = Except.error "Session 1700000000 not found" := by
  exact ⟨_, rfl, rfl, rfl, rfl⟩

lemma final_validation_ok {c n : String} (h : final_validation c = Except.ok n) :
    n = c ∧ (pySplitChar '_' n).length = 3
    ∧ ∀ p ∈ pySplitChar '_' n, 2 ≤ p.length ∧ p.length ≤ 15 := by
  unfold final_validation at h
  dsimp only [] at h
  split at h
  · exact absurd h (by simp)
  · split at h
    · exact absurd h (by simp)
    · split at h
      · exact absurd h (by simp)
      · rename_i h3 h4 h5
        have hn : n = c := by
          cases h
          rfl
        subst hn
        refine ⟨rfl, by simpa using h3, ?_⟩
        intro p hp
        have hb : ∀ x ∈ pySplitChar '_' n, x.length ≤ 15 ∧ 2 ≤ x.length := by simpa using h5
        exact ⟨(hb p hp).2, (hb p hp).1⟩

/-- Claim C7: `"mean_robot_chat"` normalizes to itself, `"Mean Robot Chat."`
normalizes to `"mean_robot_chat"`, `"one"` is rejected (and the swallowed
failure leaves the session state — hence its placeholder name — unchanged),
and every accepted name has exactly 3 underscore-separated words of 2 to 15
characters each. -/
theorem naming_normalization :
    normalize_session_name "mean_robot_chat" = Except.ok "mean_robot_chat"
    ∧ normalize_session_name "Mean Robot Chat." = Except.ok "mean_robot_chat"
    ∧ normalize_session_name "one" = Except.error "Wrong number of parts"
    ∧ (∀ st sid use_named, run_naming_task st sid "one" use_named = st)
    ∧ ∀ resp n, normalize_session_name resp = Except.ok n →
        (pySplitChar '_' n).length = 3
        ∧ ∀ p ∈ pySplitChar '_' n, 2 ≤ p.length ∧ p.length ≤ 15 := by
  refine ⟨rfl, rfl, rfl, ?_, ?_⟩
  · intro st sid use_named
    rfl
  · intro resp n h
    unfold normalize_session_name at h
    dsimp only [] at h
    split at h
    · exact absurd h (by simp)
    · exact (final_validation_ok h).2

/-- Witness for C7: the accepted name `"mean_robot_chat"` indeed has 3
words of admissible length. -/
theorem naming_normalization_witness :
    (pySplitChar '_' "mean_robot_chat").length = 3
    ∧ ∀ p ∈ pySplitChar '_' "mean_robot_chat", 2 ≤ p.length ∧ p.length ≤ 15 :=
  naming_normalization.2.2.2.2 "mean_robot_chat" "mean_robot_chat" naming_normalization.1

/-- Claim C10: deleting an existing session removes exactly its backing
file; when it was the active session the manager is left with no active
session (so `has_active_session` is false and `get_messages` is empty,
and no replacement session is created), and when it was not, the active
reference is untouched. -/
theorem delete_clears_active (st : MgrState) (sid : String) (d : SessionData)
    (hfile : getFile st.files (sid ++ ".json") = some d) :
    (st.active_session_id = some sid →
      ∃ st', delete_session st sid = Except.ok st'
        ∧ has_active_session st' = false
        ∧ get_messages st' = []
        ∧ st'.files = delFile st.files (sid ++ ".json"))
    ∧ (st.active_session_id ≠ some sid →
      ∃ st', delete_session st sid = Except.ok st'
        ∧ st'.active_session_id = st.active_session_id
        ∧ st'.active_session_data = st.active_session_data
        ∧ st'.files = delFile st.files (sid ++ ".json")) := by
  constructor
  · intro hact
    have hbeq : (st.active_session_id == some sid) = true := by simp [hact]
    refine ⟨{ files := delFile st.files (sid ++ ".json"),
              active_session_id := none, active_session_data := none }, ?_, rfl, rfl, rfl⟩
    simp [delete_session, hfile, hbeq]
  · intro hact
    have hbeq : (st.active_session_id == some sid) = false := by simp [hact]
    refine ⟨{ st with files := delFile st.files (sid ++ ".json") }, ?_, rfl, rfl, rfl⟩
    simp [delete_session, hfile, hbeq]

/-- Witness for C10: deleting the active session `"7"` of a concrete
two-file store clears the active reference and removes only `7.json`. -/
theorem delete_clears_active_witness :
    ∃ st', delete_session
        { files := [("7.json", { id := "7", name := "7", system_prompt := "p",
                                 messages := [{ role := "user", content := "x" }] }),
                    ("8.json", { id := "8", name := "8", system_prompt := "p", messages := [] })],
          active_session_id := some "7",
          active_session_data := some { id := "7", name := "7", system_prompt := "p",
                                        messages := [{ role := "user", content := "x" }] } }
        "7" = Except.ok st'
      ∧ has_active_session st' = false
      ∧ get_messages st' = []
      ∧ st'.files = delFile
          [("7.json", { id := "7", name := "7", system_prompt := "p",
                        messages := [{ role := "user", content := "x" }] }),
           ("8.json", { id := "8", name := "8", system_prompt := "p", messages := [] })]
          "7.json" :=
  (delete_clears_active
    { files := [("7.json", { id := "7", name := "7", system_prompt := "p",
                             messages := [{ role := "user", content := "x" }] }),
                ("8.json", { id := "8", name := "8", system_prompt := "p", messages := [] })],
      active_session_id := some "7",
      active_session_data := some { id := "7", name := "7", system_prompt := "p",
                                    messages := [{ role := "user", content := "x" }] } }
    "7"
    { id := "7", name := "7", system_prompt := "p",
      messages := [{ role := "user", content := "x" }] }
    rfl).1 rfl

lemma generateStream_ok_active (st : MgrState) (um : String) (frags : List String)
    (auto : Bool) (sid : String) (d : SessionData)
    (hid : st.active_session_id = some sid) (hb : (sid == "") = false)
    (hdata : st.active_session_data = some d) :
    generateStream st um (StreamAttempt.ok frags) auto
      = ((streamed_chunks frags).map SseFrame.chunk ++ [SseFrame.done],
         { files := save_session_data
               (save_session_data st.files sid
                 { d with messages := d.messages ++ [{ role := "user", content := um }] })
               sid
               { d with messages := (d.messages ++ [{ role := "user", content := um }])
                   ++ [{ role := "assistant",
                         content := pyConcat (streamed_chunks frags) }] },
           active_session_id := st.active_session_id,
           active_session_data := some { d with messages :=
             (d.messages ++ [{ role := "user", content := um }])
               ++ [{ role := "assistant",
                     content := pyConcat (streamed_chunks frags) }] } },
         auto_name_condition auto
           ((d.messages ++ [{ role := "user", content := um }])
             ++ [{ role := "assistant", content := pyConcat (streamed_chunks frags) }])
           d.name d.id) := by
  simp [generateStream, add_message, get_active_session, get_messages, hid, hb, hdata]

/-- Claim C9: during the streaming chat operation, the user and assistant
messages are appended only after the fragment loop completes; when the
backend iterator raises, the response stream is the relayed chunks followed
by a single error frame, and the manager state — in particular the
session's message list — is unchanged. -/
theorem streaming_persistence_atomicity (st : MgrState) (um : String) (auto : Bool) :
    (∀ frags e, generateStream st um (StreamAttempt.raises frags e) auto
        = ((streamed_chunks frags).map SseFrame.chunk ++ [SseFrame.fail e], st, false))
    ∧ (∀ frags d, get_active_session st = some d →
        ∃ st2 fired,
          generateStream st um (StreamAttempt.ok frags) auto
            = ((streamed_chunks frags).map SseFrame.chunk ++ [SseFrame.done], st2, fired)
          ∧ get_messages st2 = get_messages st ++
              [{ role := "user", content := um },
               { role := "assistant", content := pyConcat frags }]) := by
  constructor
  · intro frags e
    rfl
  · intro frags d hact
    cases hid : st.active_session_id with
    | none => simp [get_active_session, hid] at hact
    | some sid =>
      cases hb : (sid == "") with
      | true => simp [get_active_session, hid, hb] at hact
      | false =>
        have hdata : st.active_session_data = some d := by
          simpa [get_active_session, hid, hb] using hact
        refine ⟨_, _, generateStream_ok_active st um frags auto sid d hid hb hdata, ?_⟩
        have hmsgs : get_messages st = d.messages := by simp [get_messages, hact]
        simp [get_messages, get_active_session, hid, hb, hdata, hmsgs, pyConcat_streamed_chunks]

/-- Witness for C9: completing a one-fragment stream on a concrete active
session appends exactly the user and assistant messages. -/
theorem streaming_persistence_atomicity_witness :
    ∃ st2 fired,
      generateStream
        { files := [("9.json", { id := "9", name := "9", system_prompt := "p", messages := [] })],
          active_session_id := some "9",
          active_session_data := some { id := "9", name := "9", system_prompt := "p",
                                        messages := [] } }
        "hey" (StreamAttempt.ok ["ok!"]) true
        = ((streamed_chunks ["ok!"]).map SseFrame.chunk ++ [SseFrame.done], st2, fired)
      ∧ get_messages st2 = get_messages
          { files := [("9.json", { id := "9", name := "9", system_prompt := "p",
                                   messages := [] })],
            active_session_id := some "9",
            active_session_data := some { id := "9", name := "9", system_prompt := "p",
                                          messages := [] } } ++
          [{ role := "user", content := "hey" },
           { role := "assistant", content := pyConcat ["ok!"] }] :=
  (streaming_persistence_atomicity _ "hey" true).2 ["ok!"]
    { id := "9", name := "9", system_prompt := "p", messages := [] } rfl

/-- Claim C1: from a freshly created session, streaming the non-empty
message `"hello"` (with the backend yielding fragments whose concatenation
is non-empty) succeeds, the relayed chunk frames concatenate to that same
non-empty string, and the history afterwards is exactly the user message
followed by the assistant message. -/
theorem end_to_end_stream_exchange (sid sys : String) (frags : List String) (auto : Bool)
    (hsid : sid ≠ "") (hne : pyConcat frags ≠ "") :
    ∃ frames st2 fired,
      post_chat_stream (create_new_session emptyMgr sid sys) "hello"
          (StreamAttempt.ok frags) auto = Except.ok (frames, st2, fired)
      ∧ sse_text frames = pyConcat frags
      ∧ sse_text frames ≠ ""
      ∧ get_history st2
          = [{ role := "user", content := "hello" },
             { role := "assistant", content := pyConcat frags }] := by
  have hb : (sid == "") = false := by simp [hsid]
  have hid : (create_new_session emptyMgr sid sys).active_session_id = some sid := rfl
  have hdata : (create_new_session emptyMgr sid sys).active_session_data
      = some { id := sid, name := sid, system_prompt := sys, messages := [] } := rfl
  have hgen := generateStream_ok_active (create_new_session emptyMgr sid sys) "hello" frags
    auto sid { id := sid, name := sid, system_prompt := sys, messages := [] } hid hb hdata
  have hstrip : pyStripWs "hello" = "hello" := rfl
  have hpost : post_chat_stream (create_new_session emptyMgr sid sys) "hello"
      (StreamAttempt.ok frags) auto
      = Except.ok (generateStream (create_new_session emptyMgr sid sys) "hello"
          (StreamAttempt.ok frags) auto) := by
    simp [post_chat_stream, has_active_session, hid, hstrip]
  refine ⟨_, _, _, by rw [hpost, hgen], ?_, ?_, ?_⟩
  · rw [sse_text_chunks_done, pyConcat_streamed_chunks]
  · rw [sse_text_chunks_done, pyConcat_streamed_chunks]
    exact hne
  · simp [get_history, has_active_session, get_messages, get_active_session, hid, hsid,
      pyConcat_streamed_chunks]

/-- Witness for C1: a fresh session and a concrete two-fragment backend
stream produce the response `"Hi there"` and the two-message history. -/
theorem end_to_end_stream_exchange_witness :
    ∃ frames st2 fired,
      post_chat_stream (create_new_session emptyMgr "1700000000" "p") "hello"
          (StreamAttempt.ok ["Hi", " there"]) true = Except.ok (frames, st2, fired)
      ∧ sse_text frames = pyConcat ["Hi", " there"]
      ∧ sse_text frames ≠ ""
      ∧ get_history st2
          = [{ role := "user", content := "hello" },
             { role := "assistant", content := pyConcat ["Hi", " there"] }] :=
  end_to_end_stream_exchange "1700000000" "p" ["Hi", " there"] true
    (by decide) (by decide)

/-- The JSON text of a frame payload carrying both a non-empty first-choice
delta content and an explicit top-level error member. -/
def payload_content_and_error : String :=
  "\x7b\"choices\":[\x7b\"delta\":\x7b\"content\":\"hi\"\x7d\x7d],\"error\":\"boom\"\x7d"

/-- The JSON text of a frame payload carrying only an explicit error member. -/
def payload_error_only : String :=
  "\x7b\"error\":\"boom\"\x7d"

/-- A concrete `json.loads` oracle covering the two payloads above
(anything else counts as malformed). -/
def stream_parse_example : String → Option UpPayload := fun s =>
  if s == payload_content_and_error then
    some { choices := some [{ delta := some { content := some "hi" } }], err := some "boom" }
  else if s == payload_error_only then
    some { choices := none, err := some "boom" }
  else none

/-- Counterexample to C6 as stated: a processed, well-formed frame that
carries an explicit error object but also a non-empty first-choice delta
does NOT make the stream call fail — the OpenAI-compatible decoder yields
the delta and completes normally (`error` is only examined in the `elif`
taken when `choices` is absent or empty). -/
theorem error_frame_with_content_not_fatal :
    stream_parse_example payload_content_and_error
      = some { choices := some [{ delta := some { content := some "hi" } }],
               err := some "boom" }
    ∧ openai_compatible_streaming_decode stream_parse_example
        [("data: " ++ payload_content_and_error)] = (["hi"], none) :=
  ⟨rfl, rfl⟩

/-- Claim C6 (amended): for every upstream frame sequence, blank frames and
frames without the `data: ` marker are not processed, the `[DONE]` sentinel
payload ends the stream, malformed-JSON frames are skipped without failing
the stream, non-empty first-choice text deltas are yielded in arrival
order, and an explicit error object makes the whole stream call fail only
in the OpenAI-compatible variant and only when the frame carries no
non-empty `choices` array — the OpenAI variant has no error branch and
skips such frames. -/
theorem stream_decode_rules (parse : String → Option UpPayload) (rest : List String) (hd : Bool) :
    (compat_decode_aux parse ("" :: rest) hd = compat_decode_aux parse rest hd
      ∧ openai_streaming_decode parse ("" :: rest) = openai_streaming_decode parse rest)
    ∧ (compat_decode_aux parse ("data: [DONE]" :: rest) hd = ([], none)
      ∧ openai_streaming_decode parse ("data: [DONE]" :: rest) = [])
    ∧ (∀ line, ¬ line = "" → pyStartsWith "data: " (pyStripWs line) = false →
        compat_decode_aux parse (line :: rest) hd = compat_decode_aux parse rest true)
    ∧ (∀ line, ¬ line = "" → pyStartsWith "data: " line = false →
        openai_streaming_decode parse (line :: rest) = openai_streaming_decode parse rest)
    ∧ (∀ line, ¬ line = "" → pyStartsWith "data: " (pyStripWs line) = true →
        ¬ pyStripWs (pyDrop 6 (pyStripWs line)) = "[DONE]" →
        parse (pyStripWs (pyDrop 6 (pyStripWs line))) = none →
        compat_decode_aux parse (line :: rest) hd = compat_decode_aux parse rest true)
    ∧ (∀ line, ¬ line = "" → pyStartsWith "data: " line = true →
        ¬ pyDrop 6 line = "[DONE]" →
        parse (pyDrop 6 line) = none →
        openai_streaming_decode parse (line :: rest) = openai_streaming_decode parse rest)
    ∧ (∀ line pl c0 cs, ¬ line = "" → pyStartsWith "data: " (pyStripWs line) = true →
        ¬ pyStripWs (pyDrop 6 (pyStripWs line)) = "[DONE]" →
        parse (pyStripWs (pyDrop 6 (pyStripWs line))) = some pl →
        pl.choices = some (c0 :: cs) → ¬ firstChoiceContent c0 = "" →
        compat_decode_aux parse (line :: rest) hd
          = (firstChoiceContent c0 :: (compat_decode_aux parse rest true).1,
             (compat_decode_aux parse rest true).2))
    ∧ (∀ line pl c0 cs, ¬ line = "" → pyStartsWith "data: " line = true →
        ¬ pyDrop 6 line = "[DONE]" →
        parse (pyDrop 6 line) = some pl →
        pl.choices = some (c0 :: cs) → ¬ firstChoiceContent c0 = "" →
        openai_streaming_decode parse (line :: rest)
          = firstChoiceContent c0 :: openai_streaming_decode parse rest)
    ∧ (∀ line pl e, ¬ line = "" → pyStartsWith "data: " (pyStripWs line) = true →
        ¬ pyStripWs (pyDrop 6 (pyStripWs line)) = "[DONE]" →
        parse (pyStripWs (pyDrop 6 (pyStripWs line))) = some pl →
        (pl.choices = none ∨ pl.choices = some []) → pl.err = some e →
        compat_decode_aux parse (line :: rest) hd
          = ([], some ("LM Studio API error: " ++ e)))
    ∧ (∀ line pl, ¬ line = "" → pyStartsWith "data: " line = true →
        ¬ pyDrop 6 line = "[DONE]" →
        parse (pyDrop 6 line) = some pl →
        (pl.choices = none ∨ pl.choices = some []) →
        openai_streaming_decode parse (line :: rest) = openai_streaming_decode parse rest) := by
  refine ⟨⟨rfl, rfl⟩, ⟨rfl, rfl⟩, ?_, ?_, ?_, ?_, ?_, ?_, ?_, ?_⟩
  · intro line hline hns
    simp [compat_decode_aux, hline, hns]
  · intro line hline hns
    simp [openai_streaming_decode, hline, hns]
  · intro line hline hstart hdone hparse
    simp [compat_decode_aux, hline, hstart, hdone, hparse]
  · intro line hline hstart hdone hparse
    simp [openai_streaming_decode, hline, hstart, hdone, hparse]
  · intro line pl c0 cs hline hstart hdone hparse hch hc
    simp [compat_decode_aux, hline, hstart, hdone, hparse, hch, hc]
  · intro line pl c0 cs hline hstart hdone hparse hch hc
    simp [openai_streaming_decode, hline, hstart, hdone, hparse, hch, hc]
  · intro line pl e hline hstart hdone hparse hch herr
    rcases hch with hch | hch <;>
      simp [compat_decode_aux, hline, hstart, hdone, hparse, hch, herr]
  · intro line pl hline hstart hdone hparse hch
    rcases hch with hch | hch <;>
      simp [openai_streaming_decode, hline, hstart, hdone, hparse, hch]

/-- Witness for the amended C6: concrete junk, malformed, content-carrying
and error-only frames exercise every decode rule. -/
theorem stream_decode_rules_witness :
    compat_decode_aux stream_parse_example ["junk"] false
      = compat_decode_aux stream_parse_example [] true
    ∧ openai_streaming_decode stream_parse_example ["junk"]
      = openai_streaming_decode stream_parse_example []
    ∧ compat_decode_aux stream_parse_example ["data: notjson"] false
      = compat_decode_aux stream_parse_example [] true
    ∧ openai_streaming_decode stream_parse_example ["data: notjson"]
      = openai_streaming_decode stream_parse_example []
    ∧ compat_decode_aux stream_parse_example [("data: " ++ payload_content_and_error)] false
      = ("hi" :: (compat_decode_aux stream_parse_example [] true).1,
         (compat_decode_aux stream_parse_example [] true).2)
    ∧ openai_streaming_decode stream_parse_example [("data: " ++ payload_content_and_error)]
      = "hi" :: openai_streaming_decode stream_parse_example []
    ∧ compat_decode_aux stream_parse_example [("data: " ++ payload_error_only)] false
      = ([], some ("LM Studio API error: " ++ "boom"))
    ∧ openai_streaming_decode stream_parse_example [("data: " ++ payload_error_only)]
      = openai_streaming_decode stream_parse_example [] :=
  ⟨(stream_decode_rules stream_parse_example [] false).2.2.1 "junk"
      (by decide) (by decide),
   (stream_decode_rules stream_parse_example [] false).2.2.2.1 "junk"
      (by decide) (by decide),
   (stream_decode_rules stream_parse_example [] false).2.2.2.2.1 "data: notjson"
      (by decide) (by decide) (by decide) rfl,
   (stream_decode_rules stream_parse_example [] false).2.2.2.2.2.1 "data: notjson"
      (by decide) (by decide) (by decide) rfl,
   (stream_decode_rules stream_parse_example [] false).2.2.2.2.2.2.1
      ("data: " ++ payload_content_and_error)
      { choices := some [{ delta := some { content := some "hi" } }], err := some "boom" }
      { delta := some { content := some "hi" } } []
      (by decide) (by decide) (by decide) rfl rfl (by decide),
   (stream_decode_rules stream_parse_example [] false).2.2.2.2.2.2.2.1
      ("data: " ++ payload_content_and_error)
      { choices := some [{ delta := some { content := some "hi" } }], err := some "boom" }
      { delta := some { content := some "hi" } } []
      (by decide) (by decide) (by decide) rfl rfl (by decide),
   (stream_decode_rules stream_parse_example [] false).2.2.2.2.2.2.2.2.1
      ("data: " ++ payload_error_only)
      { choices := none, err := some "boom" } "boom"
      (by decide) (by decide) (by decide) rfl (Or.inl rfl) rfl,
   (stream_decode_rules stream_parse_example [] false).2.2.2.2.2.2.2.2.2
      ("data: " ++ payload_error_only)
      { choices := none, err := some "boom" }
      (by decide) (by decide) (by decide) rfl (Or.inl rfl)⟩
